import Mathlib

/-!
Verification of the QuickCall control panel and its companion SIP server.

The development shallowly embeds the pieces of the codebase that the
properties below speak about:

* the companion Express server (`SIP_SETUP.md`, embedded server source):
  the `/api/livekit-token` and `/api/make-call` handlers, modelled as pure
  functions from the request body, the loaded environment, the clock and
  the outcomes of the spawned subprocesses to a trace of observable
  actions (room creation, process spawns, waits, HTTP response);
* the front-end application state and its update handlers (`App.tsx`);
* `TelephonyService` / `SipService` event-listener registration
  (`telephonyService.ts`, `sipService.ts`);
* `LettaApiService.deleteAllAgents` (`lettaApi.ts`);
* `formatPhoneNumber` / `isValidPhoneNumber` (`telephonyService.ts`).

JavaScript conventions carried over by the embedding: an optional JSON
field is an `Option String`, and the truthiness test a handler performs on
it (`!field`) is false exactly when the field is absent or the empty
string; a number interpolated into a template string is rendered in
decimal.
-/

namespace QuickCall

/-- JS truthiness of an optional string field: `undefined` (absent) and
the empty string are falsy, every other string is truthy. -/
def truthy : Option String → Bool
  | none => false
  | some s => !(s == "")

/-- JS `s.endsWith(suffix)`: the character sequence of `suffix` is a
suffix of that of `s`. -/
def jsEndsWith (s suffix : String) : Bool :=
  suffix.data.isSuffixOf s.data

/-! ### Decimal rendering of a JS number

`Date.now()` interpolated into a template string renders in decimal.
`decDigitsAux` is fuel-indexed so that it is structurally recursive and
evaluates by `decide`. -/

/-- Most-significant-first decimal digits of `n`, with fuel `f ≥ n`. -/
def decDigitsAux : Nat → Nat → List Nat
  | 0, _ => []
  | _ + 1, 0 => []
  | f + 1, n + 1 => decDigitsAux f ((n + 1) / 10) ++ [(n + 1) % 10]

/-- Most-significant-first decimal digits of `n` (empty for `0`). -/
def decDigits (n : Nat) : List Nat :=
  decDigitsAux n n

/-- The character for a single decimal digit. -/
def digitChar (d : Nat) : Char :=
  Char.ofNat (48 + d)

/-- Decimal rendering of a JS number, as template-string interpolation
produces it. -/
def jsShowNat (n : Nat) : String :=
  if n = 0 then "0" else String.mk ((decDigits n).map digitChar)

/-- Value of a most-significant-first digit list. -/
def digitsVal (l : List Nat) : Nat :=
  l.foldl (fun a d => 10 * a + d) 0

/-- Left inverse of `jsShowNat`, used to prove it injective. -/
def jsParseNat (s : String) : Nat :=
  digitsVal (s.data.map (fun c => c.toNat - 48))

namespace Server

/-!
### The companion server (`server.js`, reproduced in `SIP_SETUP.md`)

The handlers are embedded as pure functions.  External effects (the
LiveKit room service call, process spawns, the timer, the HTTP response)
are recorded as a trace of `Event`s in the order the handler performs
them; the asynchronous callbacks of the source run in exactly this order
on the success path being modelled.  Outcomes of the external world (the
clock, the exit status and captured output of the spawned `lk` dial
command) are parameters.  Logging and the agent-log file are omitted, and
the LiveKit `createRoom` call is modelled as succeeding (the enclosing
`try/catch` path for a throwing room service is not a subject of the
properties below).
-/

/-- Environment variables loaded at server start. -/
structure Env where
  apiKey : Option String
  apiSecret : Option String
  wsUrl : Option String
deriving DecidableEq

/-- `LIVEKIT_API_KEY` and `LIVEKIT_API_SECRET` both configured (the
check `!LIVEKIT_API_KEY || !LIVEKIT_API_SECRET` fails). -/
def credsConfigured (env : Env) : Bool :=
  truthy env.apiKey && truthy env.apiSecret

/-- The metadata attached to the created room. -/
structure RoomMetadata where
  agent_id : String
  phone_number : String
deriving DecidableEq

/-- The options the handler passes to `roomService.createRoom`. -/
structure CreateRoomOpts where
  name : String
  emptyTimeout : Nat
  maxParticipants : Nat
  metadata : RoomMetadata
deriving DecidableEq

/-- An HTTP response: status code and JSON body as key-value pairs. -/
structure HttpResponse where
  status : Nat
  body : List (String × String)
deriving DecidableEq

/-- Observable actions of the make-call handler, in order. -/
inductive Event where
  | createRoom (opts : CreateRoomOpts)
  | spawnAgent (cmd : String) (args : List String)
  | wait (ms : Nat)
  | spawnDial (cmd : String) (args : List String)
  | killAgent
  | deleteRoom (name : String)
  | respond (r : HttpResponse)
deriving DecidableEq

/-- The kind of an event, forgetting its payload. -/
inductive EventKind where
  | createRoom | spawnAgent | wait | spawnDial | killAgent | deleteRoom | respond
deriving DecidableEq

/-- Forget an event's payload. -/
def Event.kind : Event → EventKind
  | .createRoom _ => .createRoom
  | .spawnAgent _ _ => .spawnAgent
  | .wait _ => .wait
  | .spawnDial _ _ => .spawnDial
  | .killAgent => .killAgent
  | .deleteRoom _ => .deleteRoom
  | .respond _ => .respond

/-- The delays of the wait events of a trace. -/
def waitsOf (tr : List Event) : List Nat :=
  tr.filterMap fun e => match e with | .wait ms => some ms | _ => none

/-- Body of a `POST /api/make-call` request. -/
structure MakeCallBody where
  «to» : Option String
  agentId : Option String
deriving DecidableEq

/-- Outcome of the spawned `lk sip participant create` process: exit code
reported to the `close` listener, and the accumulated stderr/stdout. -/
structure DialOutcome where
  exitCode : Nat
  stderr : String
  stdout : String
deriving DecidableEq

/-- The hard-coded SIP trunk id. -/
def sipTrunkId : String := "ST_LgQdMYv7NnfA"

/-- `path.join(__dirname, '../livekit-agent.py')`, relative to the server
directory. -/
def agentScript : String := "../livekit-agent.py"

/-- E.164 normalisation: `to.startsWith('+') ? to : '+1' + to`. -/
def e164 (t : String) : String :=
  if t.startsWith "+" then t else "+1" ++ t

/-- `'outbound-' + agentId + '-' + Date.now()`. -/
def mkRoomName (agentId : String) (now : Nat) : String :=
  "outbound-" ++ agentId ++ "-" ++ jsShowNat now

/-- The 500 body sent when the dial command fails:
`'SIP call failed: ' + (error || 'Unknown error')`. -/
def sipFailMessage (stderr : String) : String :=
  "SIP call failed: " ++ (if stderr == "" then "Unknown error" else stderr)

/-- The `POST /api/make-call` handler.  `now` is `Date.now()` at room
naming time, `dialNow` is `Date.now()` at dial-spawn time (used for the
SIP participant identity), `dial` the outcome of the dial command. -/
def makeCall (env : Env) (body : MakeCallBody) (now dialNow : Nat)
    (dial : DialOutcome) : List Event :=
  if !(truthy body.«to» && truthy body.agentId) then
    [.respond ⟨400, [("error", "Phone number and agentId are required")]⟩]
  else
    let agentId := body.agentId.getD ""
    let phoneNumber := e164 (body.«to».getD "")
    let roomName := mkRoomName agentId now
    if !(credsConfigured env) then
      [.respond ⟨503, [("error", "LiveKit not configured - demo mode only")]⟩]
    else
      .createRoom ⟨roomName, 300, 2, ⟨agentId, phoneNumber⟩⟩ ::
      .spawnAgent "conda"
        ["run", "-n", "letta", "python", agentScript, "connect",
         "--room", roomName] ::
      .wait 2000 ::
      .spawnDial "lk"
        ["sip", "participant", "create", "--room", roomName,
         "--trunk", sipTrunkId, "--call", phoneNumber,
         "--identity", "sip-" ++ jsShowNat dialNow] ::
      (if dial.exitCode = 0 then
        [.respond ⟨200, [("roomName", roomName), ("status", "dispatched"),
                         ("phoneNumber", phoneNumber),
                         ("agentId", agentId)]⟩]
      else
        [.killAgent,
         .respond ⟨500, [("error", sipFailMessage dial.stderr)]⟩])

/-- Body of a `POST /api/livekit-token` request. -/
structure TokenBody where
  roomName : Option String
  participantName : Option String
  phoneNumber : Option String
deriving DecidableEq

/-- A signed LiveKit access token, abstracting the JWT encoding: the
identity it is issued to, its ttl and its grant. -/
structure Jwt where
  identity : String
  ttl : String
  roomJoin : Bool
  room : String
  canPublish : Bool
  canSubscribe : Bool
  canPublishData : Bool
deriving DecidableEq

/-- `generateLiveKitToken`: throws when the credentials are not
configured, otherwise signs a token whose identity is the participant
name and whose grant names the room. -/
def generateLiveKitToken (env : Env) (roomName participantName : String) :
    Except String Jwt :=
  if !(credsConfigured env) then
    .error "LiveKit API credentials not configured"
  else
    .ok ⟨participantName, "10m", true, roomName, true, true, true⟩

/-- Response of the token endpoint. -/
inductive TokenResponse where
  | badRequest (error : String)
  | issued (token : Jwt) (wsUrl : Option String)
      (roomName participantName : String)
  | failure (error details : String)
deriving DecidableEq

/-- HTTP status of a token-endpoint response. -/
def TokenResponse.status : TokenResponse → Nat
  | .badRequest _ => 400
  | .issued _ _ _ _ => 200
  | .failure _ _ => 500

/-- The `POST /api/livekit-token` handler. -/
def livekitToken (env : Env) (body : TokenBody) : TokenResponse :=
  if !(truthy body.roomName && truthy body.participantName) then
    .badRequest "roomName and participantName are required"
  else
    let roomName := body.roomName.getD ""
    let participantName := body.participantName.getD ""
    match generateLiveKitToken env roomName participantName with
    | .ok token => .issued token env.wsUrl roomName participantName
    | .error e => .failure "Failed to generate token" e

end Server

/-!
### Front-end data model (`src/types.ts`, re-exported in
`telephonyService.ts`)

JS `Date` values are carried as their source strings or clock values;
parsing and formatting of dates is done by the platform and is opaque
here.
-/

/-- A JS `Date`, identified by the value it was constructed from. -/
structure JsDate where
  raw : String
deriving DecidableEq

/-- `'online' | 'offline' | 'busy'`. -/
inductive AgentStatus where
  | online | offline | busy
deriving DecidableEq

/-- `'stopped' | 'starting' | 'running' | 'stopping'`. -/
inductive WorkerStatus where
  | stopped | starting | running | stopping
deriving DecidableEq

/-- The `Agent` interface. -/
structure Agent where
  id : String
  name : String
  status : AgentStatus
  avatar : Option String
  lastActive : JsDate
  description : Option String
  autoReceiveCalls : Option Bool
  assignedPhoneNumber : Option String
  workerStatus : Option WorkerStatus
deriving DecidableEq

/-- `'agent' | 'caller'`. -/
inductive Sender where
  | agent | caller
deriving DecidableEq

/-- `'text' | 'audio'`. -/
inductive MessageType where
  | text | audio
deriving DecidableEq

/-- The `Message` interface. -/
structure Message where
  id : String
  content : String
  timestamp : JsDate
  sender : Sender
  type : MessageType
deriving DecidableEq

/-- `'active' | 'ended' | 'paused'`. -/
inductive SessionStatus where
  | active | ended | paused
deriving DecidableEq

/-- The optional `callerInfo` record. -/
structure CallerInfo where
  name : Option String
  phone : Option String
deriving DecidableEq

/-- The `ChatSession` interface. -/
structure ChatSession where
  id : String
  agentId : String
  messages : List Message
  status : SessionStatus
  startTime : JsDate
  endTime : Option JsDate
  callerInfo : Option CallerInfo
deriving DecidableEq

/-- The `FileItem` interface. -/
structure FileItem where
  id : String
  name : String
  size : Nat
  type : String
  uploadDate : JsDate
  url : Option String
deriving DecidableEq

/-- `'connecting' | 'connected' | 'ended' | 'failed'`. -/
inductive CallStatus where
  | connecting | connected | ended | failed
deriving DecidableEq

/-- The `VoiceCall` interface. -/
structure VoiceCall where
  id : String
  agentId : String
  status : CallStatus
  startTime : JsDate
  endTime : Option JsDate
  duration : Option Nat
  callerInfo : Option CallerInfo
deriving DecidableEq

/-- The `AppState` interface: the single-page application state. -/
structure AppState where
  agents : List Agent
  selectedAgent : Option Agent
  currentSession : Option ChatSession
  currentCall : Option VoiceCall
  context : String
  files : List FileItem
  isContextUpdating : Bool
deriving DecidableEq

namespace TelephonyService

/-!
### Event-callback registration (`telephonyService.ts`)

Handlers are JS function objects compared by reference (`===`); they are
embedded as values of an arbitrary type with decidable equality.
`onEvent` is `this.eventHandlers.push(handler)`; `removeEvent` looks up
`indexOf` and `splice`s out one element when the index is not `-1`.
-/

/-- `onEvent`: append the handler to the handler list. -/
def onEvent {H : Type} (handlers : List H) (h : H) : List H :=
  handlers ++ [h]

/-- `removeEvent`: remove the element at the handler's first index, if
the handler occurs (Lean's `indexOf` returns the length where JS returns
`-1`). -/
def removeEvent {H : Type} [DecidableEq H] (handlers : List H) (h : H) :
    List H :=
  let index := handlers.indexOf h
  if index < handlers.length then handlers.eraseIdx index else handlers

end TelephonyService

namespace SipService

/-- `SipService.onEvent`, textually identical to the telephony one. -/
def onEvent {H : Type} (handlers : List H) (h : H) : List H :=
  handlers ++ [h]

/-- `SipService.removeEvent`, textually identical to the telephony
one. -/
def removeEvent {H : Type} [DecidableEq H] (handlers : List H) (h : H) :
    List H :=
  let index := handlers.indexOf h
  if index < handlers.length then handlers.eraseIdx index else handlers

end SipService

/-!
### Phone number utilities (`telephonyService.ts`)

`phoneNumber.replace(/\D/g, '')` keeps exactly the characters `0`-`9`,
which is Lean's `Char.isDigit`.
-/

/-- `formatPhoneNumber`. -/
def formatPhoneNumber (phoneNumber : String) : String :=
  let digits := phoneNumber.data.filter Char.isDigit
  if digits.length = 10 then
    "(" ++ String.mk (digits.take 3) ++ ") "
      ++ String.mk ((digits.drop 3).take 3) ++ "-"
      ++ String.mk (digits.drop 6)
  else if digits.length = 11 ∧ digits.head? = some '1' then
    "+1 (" ++ String.mk ((digits.drop 1).take 3) ++ ") "
      ++ String.mk ((digits.drop 4).take 3) ++ "-"
      ++ String.mk (digits.drop 7)
  else
    phoneNumber

/-- `isValidPhoneNumber`. -/
def isValidPhoneNumber (phoneNumber : String) : Bool :=
  let digits := phoneNumber.data.filter Char.isDigit
  digits.length == 10 || (digits.length == 11 && digits.head? == some '1')

/-- Modelled from the spec claim's words, for comparison with
`formatPhoneNumber`: the `(XXX) XXX-XXXX` form for a 10-digit sequence,
and the `+1 (XXX) XXX-XXXX` form for an 11-digit sequence starting with
`1`, built from the extracted digits. -/
def specUSPhoneForm (digits : List Char) : String :=
  if digits.length = 10 then
    "(" ++ String.mk (digits.take 3) ++ ") "
      ++ String.mk ((digits.drop 3).take 3) ++ "-"
      ++ String.mk (digits.drop 6)
  else
    "+1 (" ++ String.mk ((digits.drop 1).take 3) ++ ") "
      ++ String.mk ((digits.drop 4).take 3) ++ "-"
      ++ String.mk (digits.drop 7)

namespace LettaApi

/-!
### `LettaApiService.deleteAllAgents` (`lettaApi.ts`)

The listing returned by the server (`getAgents`) and the outcome of each
individual `deleteAgent` HTTP call are parameters of the model; the
function is run after a successful listing.  The sequential
`for ... of` loop with its per-agent `try/catch` becomes `deleteLoop`,
producing the `results` array of `{id, success}` records in attempt
order.
-/

/-- The `LettaAgent` interface (the fields the listing returns). -/
structure LettaAgent where
  id : String
  name : String
  persona : String
  human : String
  created_at : String
  updated_at : String
deriving DecidableEq

/-- The deletion loop: attempt each agent in listing order, recording
`{id, success}` per agent; a failed deletion is caught and the loop
continues. -/
def deleteLoop (delete : String → Bool) : List LettaAgent → List (String × Bool)
  | [] => []
  | a :: rest => (a.id, delete a.id) :: deleteLoop delete rest

/-- `deleteAllAgents`, given the successful listing `agents` and the
per-agent deletion outcome `delete`.  Returns the thrown error or unit,
together with the ids whose deletion was attempted, in order. -/
def deleteAllAgents (agents : List LettaAgent) (delete : String → Bool) :
    Except String Unit × List String :=
  if agents.length = 0 then
    (.ok (), [])
  else
    let results := deleteLoop delete agents
    let successCount := (results.filter (fun r => r.2)).length
    let failCount := (results.filter (fun r => !r.2)).length
    if 0 < failCount ∧ successCount = 0 then
      (.error ("All " ++ jsShowNat failCount ++ " agent deletions failed"),
       results.map (fun r => r.1))
    else
      (.ok (), results.map (fun r => r.1))

end LettaApi

namespace App

/-!
### Application state handlers (`App.tsx`)
-/

/-- The conversion applied to each listed Letta agent in `App.tsx`
(both in `loadLettaAgents` and in the refresh inside
`handleDeleteAllAgents`): status `'online'`, `lastActive` from
`updated_at`, description from the first sentence of a truthy persona,
`autoReceiveCalls: true`. -/
def formatLettaAgent (la : LettaApi.LettaAgent) : Agent where
  id := la.id
  name := la.name
  status := .online
  avatar := none
  lastActive := ⟨la.updated_at⟩
  description := some (if la.persona == "" then "Letta AI Agent"
    else (la.persona.splitOn ".").headD "")
  autoReceiveCalls := some true
  assignedPhoneNumber := none
  workerStatus := none

/-- `loadLettaAgents` (startup effect): drop agents whose name ends in
`'sleeptime'`, convert the rest. -/
def loadLettaAgents (lettaAgents : List LettaApi.LettaAgent) : List Agent :=
  (lettaAgents.filter (fun a => !(jsEndsWith a.name "sleeptime"))).map
    formatLettaAgent

/-- The refresh performed by `handleDeleteAllAgents` after the deletion:
the same filter and conversion applied to the fresh listing. -/
def refreshAgentsAfterDeleteAll (lettaAgents : List LettaApi.LettaAgent) :
    List Agent :=
  (lettaAgents.filter (fun a => !(jsEndsWith a.name "sleeptime"))).map
    formatLettaAgent

/-- First state update of `handleContextUpdate`: raise the updating
flag. -/
def handleContextUpdateStart (s : AppState) : AppState :=
  { s with isContextUpdating := true }

/-- Second state update of `handleContextUpdate`, after the awaited
timer: install the new context and clear the flag. -/
def handleContextUpdateFinish (newContext : String) (s : AppState) :
    AppState :=
  { s with context := newContext, isContextUpdating := false }

/-- The net effect of `handleContextUpdate` on the application state:
both functional updates, in order. -/
def handleContextUpdate (newContext : String) (s : AppState) : AppState :=
  handleContextUpdateFinish newContext (handleContextUpdateStart s)

end App

/-!
## Helper lemmas
-/

theorem digitsVal_append_singleton (l : List Nat) (d : Nat) :
    digitsVal (l ++ [d]) = 10 * digitsVal l + d := by
  simp [digitsVal, List.foldl_append]

theorem digitsVal_decDigitsAux :
    ∀ f n : Nat, n ≤ f → digitsVal (decDigitsAux f n) = n := by
  intro f
  induction f with
  | zero =>
    intro n h
    obtain rfl : n = 0 := Nat.le_zero.mp h
    rfl
  | succ f ih =>
    intro n h
    match n with
    | 0 => rfl
    | m + 1 =>
      have hlt : (m + 1) / 10 < m + 1 := Nat.div_lt_self (Nat.succ_pos m) (by decide)
      have hdiv : (m + 1) / 10 ≤ f := by omega
      show digitsVal (decDigitsAux f ((m + 1) / 10) ++ [(m + 1) % 10]) = m + 1
      rw [digitsVal_append_singleton, ih _ hdiv]
      exact Nat.div_add_mod (m + 1) 10

theorem digitsVal_decDigits (n : Nat) : digitsVal (decDigits n) = n :=
  digitsVal_decDigitsAux n n (Nat.le_refl n)

theorem decDigitsAux_mem_lt_ten :
    ∀ f n d : Nat, d ∈ decDigitsAux f n → d < 10 := by
  intro f
  induction f with
  | zero => intro n d hd; cases hd
  | succ f ih =>
    intro n d hd
    match n with
    | 0 => cases hd
    | m + 1 =>
      rcases List.mem_append.mp hd with h | h
      · exact ih _ _ h
      · rcases List.mem_singleton.mp h with rfl
        exact Nat.mod_lt _ (by decide)

theorem parse_digitChar {d : Nat} (hd : d < 10) :
    (digitChar d).toNat - 48 = d := by
  revert hd
  revert d
  decide

theorem jsParseNat_jsShowNat (n : Nat) : jsParseNat (jsShowNat n) = n := by
  by_cases h0 : n = 0
  · subst h0; decide
  · have hmk : jsShowNat n = String.mk ((decDigits n).map digitChar) := by
      simp [jsShowNat, h0]
    rw [hmk]
    show digitsVal ((((decDigits n).map digitChar)).map (fun c => c.toNat - 48)) = n
    rw [List.map_map]
    have hid : (decDigits n).map ((fun c : Char => c.toNat - 48) ∘ digitChar)
        = (decDigits n).map id := by
      apply List.map_congr_left
      intro d hd
      exact parse_digitChar (decDigitsAux_mem_lt_ten n n d hd)
    rw [hid, List.map_id]
    exact digitsVal_decDigits n

theorem jsShowNat_injective : Function.Injective jsShowNat := by
  intro a b h
  have := congrArg jsParseNat h
  rwa [jsParseNat_jsShowNat, jsParseNat_jsShowNat] at this

theorem mkRoomName_inj_right {agentId : String} {t1 t2 : Nat}
    (h : Server.mkRoomName agentId t1 = Server.mkRoomName agentId t2) :
    t1 = t2 := by
  unfold Server.mkRoomName at h
  have hdata := congrArg String.data h
  simp only [String.data_append] at hdata
  have h1 := List.append_cancel_left hdata
  exact jsShowNat_injective (String.ext h1)

theorem indexOf_append_cons_self {α : Type} [DecidableEq α]
    (l l2 : List α) (a : α) (hnot : a ∉ l) :
    (l ++ a :: l2).indexOf a = l.length := by
  induction l with
  | nil => simp [List.indexOf_cons_self]
  | cons b l ih =>
    have hba : b ≠ a := fun hba => hnot (hba ▸ List.mem_cons_self b l)
    have hnot' : a ∉ l := fun hm => hnot (List.mem_cons_of_mem b hm)
    simp only [List.cons_append, List.length_cons]
    rw [List.indexOf_cons_ne _ hba, ih hnot']

theorem eraseIdx_append_cons {α : Type} (l l2 : List α) (a : α) :
    (l ++ a :: l2).eraseIdx l.length = l ++ l2 := by
  induction l with
  | nil => rfl
  | cons b l ih =>
    simp only [List.cons_append, List.length_cons, List.eraseIdx]
    exact congrArg (b :: ·) ih

theorem removeEvent_first_occurrence {α : Type} [DecidableEq α]
    (l l2 : List α) (a : α) (hnot : a ∉ l) :
    TelephonyService.removeEvent (l ++ a :: l2) a = l ++ l2 := by
  unfold TelephonyService.removeEvent
  rw [indexOf_append_cons_self l l2 a hnot]
  have hlt : l.length < (l ++ a :: l2).length := by
    simp [List.length_append]
  rw [if_pos hlt, eraseIdx_append_cons]

theorem removeEvent_not_mem {α : Type} [DecidableEq α]
    (l : List α) (a : α) (hnot : a ∉ l) :
    TelephonyService.removeEvent l a = l := by
  unfold TelephonyService.removeEvent
  rw [List.indexOf_of_not_mem hnot]
  simp

theorem deleteLoop_eq_map (del : String → Bool) :
    ∀ agents : List LettaApi.LettaAgent,
      LettaApi.deleteLoop del agents =
        agents.map (fun a => (a.id, del a.id)) := by
  intro agents
  induction agents with
  | nil => rfl
  | cons a rest ih => simp [LettaApi.deleteLoop, ih]

/-!
## Claim theorems
-/

/-- C1: for a make-call request carrying both `to` and `agentId` (both
truthy) with LiveKit credentials configured, the handler performs, in
this order: create the room, spawn the agent subprocess, wait, spawn the
SIP dial command, and respond; the created room is named from the agent
id, and when the dial command exits with code 0 the response is a 200
JSON body carrying the room name, the phone number and the agent id. -/
theorem c1_make_call_sequence (env : Server.Env)
    (body : Server.MakeCallBody) (now dialNow : Nat)
    (dial : Server.DialOutcome)
    (hto : truthy body.«to» = true) (hag : truthy body.agentId = true)
    (hcreds : Server.credsConfigured env = true)
    (hexit : dial.exitCode = 0) :
    (Server.makeCall env body now dialNow dial).map Server.Event.kind =
      [.createRoom, .spawnAgent, .wait, .spawnDial, .respond] ∧
    (∀ opts : Server.CreateRoomOpts,
      Server.Event.createRoom opts ∈ Server.makeCall env body now dialNow dial →
        opts.name = Server.mkRoomName (body.agentId.getD "") now ∧
        opts.metadata.agent_id = body.agentId.getD "") ∧
    Server.Event.spawnAgent "conda"
        ["run", "-n", "letta", "python", Server.agentScript, "connect",
         "--room", Server.mkRoomName (body.agentId.getD "") now] ∈
      Server.makeCall env body now dialNow dial ∧
    Server.Event.spawnDial "lk"
        ["sip", "participant", "create",
         "--room", Server.mkRoomName (body.agentId.getD "") now,
         "--trunk", Server.sipTrunkId,
         "--call", Server.e164 (body.«to».getD ""),
         "--identity", "sip-" ++ jsShowNat dialNow] ∈
      Server.makeCall env body now dialNow dial ∧
    Server.Event.respond ⟨200,
        [("roomName", Server.mkRoomName (body.agentId.getD "") now),
         ("status", "dispatched"),
         ("phoneNumber", Server.e164 (body.«to».getD "")),
         ("agentId", body.agentId.getD "")]⟩ ∈
      Server.makeCall env body now dialNow dial := by
  refine ⟨?_, ?_, ?_, ?_, ?_⟩
  · simp [Server.makeCall, hto, hag, hcreds, hexit, Server.Event.kind]
  · intro opts hmem
    simp [Server.makeCall, hto, hag, hcreds, hexit] at hmem
    subst hmem
    exact ⟨rfl, rfl⟩
  · simp [Server.makeCall, hto, hag, hcreds, hexit]
  · simp [Server.makeCall, hto, hag, hcreds, hexit]
  · simp [Server.makeCall, hto, hag, hcreds, hexit]

/-- C1 witness: a concrete successful call. -/
theorem c1_witness :
    (Server.makeCall ⟨some "key", some "secret", some "wss://x"⟩
        ⟨some "5551234567", some "agent-1"⟩ 7 8 ⟨0, "", "ok"⟩).map
        Server.Event.kind =
      [.createRoom, .spawnAgent, .wait, .spawnDial, .respond] ∧
    (∀ opts : Server.CreateRoomOpts,
      Server.Event.createRoom opts ∈
          Server.makeCall ⟨some "key", some "secret", some "wss://x"⟩
            ⟨some "5551234567", some "agent-1"⟩ 7 8 ⟨0, "", "ok"⟩ →
        opts.name = Server.mkRoomName
          ((some "agent-1" : Option String).getD "") 7 ∧
        opts.metadata.agent_id = (some "agent-1" : Option String).getD "") ∧
    Server.Event.spawnAgent "conda"
        ["run", "-n", "letta", "python", Server.agentScript, "connect",
         "--room", Server.mkRoomName
           ((some "agent-1" : Option String).getD "") 7] ∈
      Server.makeCall ⟨some "key", some "secret", some "wss://x"⟩
        ⟨some "5551234567", some "agent-1"⟩ 7 8 ⟨0, "", "ok"⟩ ∧
    Server.Event.spawnDial "lk"
        ["sip", "participant", "create",
         "--room", Server.mkRoomName
           ((some "agent-1" : Option String).getD "") 7,
         "--trunk", Server.sipTrunkId,
         "--call", Server.e164 ((some "5551234567" : Option String).getD ""),
         "--identity", "sip-" ++ jsShowNat 8] ∈
      Server.makeCall ⟨some "key", some "secret", some "wss://x"⟩
        ⟨some "5551234567", some "agent-1"⟩ 7 8 ⟨0, "", "ok"⟩ ∧
    Server.Event.respond ⟨200,
        [("roomName", Server.mkRoomName
            ((some "agent-1" : Option String).getD "") 7),
         ("status", "dispatched"),
         ("phoneNumber", Server.e164
            ((some "5551234567" : Option String).getD "")),
         ("agentId", (some "agent-1" : Option String).getD "")]⟩ ∈
      Server.makeCall ⟨some "key", some "secret", some "wss://x"⟩
        ⟨some "5551234567", some "agent-1"⟩ 7 8 ⟨0, "", "ok"⟩ :=
  c1_make_call_sequence ⟨some "key", some "secret", some "wss://x"⟩
    ⟨some "5551234567", some "agent-1"⟩ 7 8 ⟨0, "", "ok"⟩
    (by decide) (by decide) (by decide) (by decide)

/-- C2: when the dial command exits nonzero, the only actions after the
dial spawn are killing the agent subprocess and a 500 response carrying
the dial command's error output; no step recurs in the trace, and the
created room is never deleted. -/
theorem c2_make_call_dial_failure (env : Server.Env)
    (body : Server.MakeCallBody) (now dialNow : Nat)
    (dial : Server.DialOutcome)
    (hto : truthy body.«to» = true) (hag : truthy body.agentId = true)
    (hcreds : Server.credsConfigured env = true)
    (hexit : dial.exitCode ≠ 0) :
    (Server.makeCall env body now dialNow dial).map Server.Event.kind =
      [.createRoom, .spawnAgent, .wait, .spawnDial, .killAgent, .respond] ∧
    Server.Event.respond ⟨500, [("error", Server.sipFailMessage dial.stderr)]⟩
      ∈ Server.makeCall env body now dialNow dial ∧
    (∀ name : String,
      Server.Event.deleteRoom name ∉ Server.makeCall env body now dialNow dial) := by
  refine ⟨?_, ?_, ?_⟩
  · simp [Server.makeCall, hto, hag, hcreds, hexit, Server.Event.kind]
  · simp [Server.makeCall, hto, hag, hcreds, hexit]
  · intro name
    simp [Server.makeCall, hto, hag, hcreds, hexit]

/-- C2 witness: a concrete failed dial. -/
theorem c2_witness :
    (Server.makeCall ⟨some "key", some "secret", some "wss://x"⟩
        ⟨some "5551234567", some "agent-1"⟩ 7 8 ⟨1, "busy", ""⟩).map
        Server.Event.kind =
      [.createRoom, .spawnAgent, .wait, .spawnDial, .killAgent, .respond] ∧
    Server.Event.respond ⟨500, [("error", Server.sipFailMessage "busy")]⟩ ∈
      Server.makeCall ⟨some "key", some "secret", some "wss://x"⟩
        ⟨some "5551234567", some "agent-1"⟩ 7 8 ⟨1, "busy", ""⟩ ∧
    (∀ name : String,
      Server.Event.deleteRoom name ∉
        Server.makeCall ⟨some "key", some "secret", some "wss://x"⟩
          ⟨some "5551234567", some "agent-1"⟩ 7 8 ⟨1, "busy", ""⟩) :=
  c2_make_call_dial_failure ⟨some "key", some "secret", some "wss://x"⟩
    ⟨some "5551234567", some "agent-1"⟩ 7 8 ⟨1, "busy", ""⟩
    (by decide) (by decide) (by decide) (by decide)

/-- C3: on the orchestration path, the wait between the agent spawn and
the dial spawn is the single fixed delay of 2000 milliseconds, whatever
the request body, the clock values and the dial outcome are. -/
theorem c3_fixed_two_second_sleep (env : Server.Env)
    (body : Server.MakeCallBody) (now dialNow : Nat)
    (dial : Server.DialOutcome)
    (hto : truthy body.«to» = true) (hag : truthy body.agentId = true)
    (hcreds : Server.credsConfigured env = true) :
    Server.waitsOf (Server.makeCall env body now dialNow dial) = [2000] := by
  by_cases hexit : dial.exitCode = 0 <;>
    simp [Server.waitsOf, Server.makeCall, hto, hag, hcreds, hexit]

/-- C3 witness: the concrete delay list of a concrete call. -/
theorem c3_witness :
    Server.waitsOf (Server.makeCall ⟨some "key", some "secret", some "wss://x"⟩
      ⟨some "+15551234567", some "agent-2"⟩ 3 4 ⟨2, "err", ""⟩) = [2000] :=
  c3_fixed_two_second_sleep ⟨some "key", some "secret", some "wss://x"⟩
    ⟨some "+15551234567", some "agent-2"⟩ 3 4 ⟨2, "err", ""⟩
    (by decide) (by decide) (by decide)

/-- C5: the make-call handler is not idempotent: two executions of the
handler on the identical request body at distinct clock values each
create a room, and the names of the two created rooms differ (the name
embeds the clock value). -/
theorem c5_make_call_not_idempotent (env : Server.Env)
    (body : Server.MakeCallBody) (t1 t2 dn1 dn2 : Nat)
    (d1 d2 : Server.DialOutcome)
    (hto : truthy body.«to» = true) (hag : truthy body.agentId = true)
    (hcreds : Server.credsConfigured env = true) (hne : t1 ≠ t2) :
    ∃ o1 o2 : Server.CreateRoomOpts,
      Server.Event.createRoom o1 ∈ Server.makeCall env body t1 dn1 d1 ∧
      Server.Event.createRoom o2 ∈ Server.makeCall env body t2 dn2 d2 ∧
      o1.name ≠ o2.name := by
  refine ⟨⟨Server.mkRoomName (body.agentId.getD "") t1, 300, 2,
      ⟨body.agentId.getD "", Server.e164 (body.«to».getD "")⟩⟩,
    ⟨Server.mkRoomName (body.agentId.getD "") t2, 300, 2,
      ⟨body.agentId.getD "", Server.e164 (body.«to».getD "")⟩⟩, ?_, ?_, ?_⟩
  · simp [Server.makeCall, hto, hag, hcreds]
  · simp [Server.makeCall, hto, hag, hcreds]
  · intro hname
    exact hne (mkRoomName_inj_right hname)

/-- C5 witness: concrete distinct timestamps yield distinct rooms. -/
theorem c5_witness :
    ∃ o1 o2 : Server.CreateRoomOpts,
      Server.Event.createRoom o1 ∈
        Server.makeCall ⟨some "key", some "secret", some "wss://x"⟩
          ⟨some "5551234567", some "agent-1"⟩ 1 1 ⟨0, "", ""⟩ ∧
      Server.Event.createRoom o2 ∈
        Server.makeCall ⟨some "key", some "secret", some "wss://x"⟩
          ⟨some "5551234567", some "agent-1"⟩ 2 2 ⟨0, "", ""⟩ ∧
      o1.name ≠ o2.name :=
  c5_make_call_not_idempotent ⟨some "key", some "secret", some "wss://x"⟩
    ⟨some "5551234567", some "agent-1"⟩ 1 2 1 2 ⟨0, "", ""⟩ ⟨0, "", ""⟩
    (by decide) (by decide) (by decide) (by decide)

/-- C6: `handleContextUpdate` leaves the state with the new context and
a cleared updating flag, and does not touch the agents, the selected
agent, the session, the call or the files. -/
theorem c6_handleContextUpdate_frame (s : AppState) (c : String) :
    (App.handleContextUpdate c s).context = c ∧
    (App.handleContextUpdate c s).isContextUpdating = false ∧
    (App.handleContextUpdate c s).agents = s.agents ∧
    (App.handleContextUpdate c s).selectedAgent = s.selectedAgent ∧
    (App.handleContextUpdate c s).currentSession = s.currentSession ∧
    (App.handleContextUpdate c s).currentCall = s.currentCall ∧
    (App.handleContextUpdate c s).files = s.files :=
  ⟨rfl, rfl, rfl, rfl, rfl, rfl, rfl⟩

/-- C7: registration round-trips on both services: adding a handler not
currently registered and then removing it restores the list, removing an
unregistered handler is a no-op, and removal only drops the first
occurrence of the handler. -/
theorem c7_event_registration_round_trip {α : Type} [DecidableEq α]
    (l : List α) (h : α) (hnot : h ∉ l) :
    TelephonyService.removeEvent (TelephonyService.onEvent l h) h = l ∧
    TelephonyService.removeEvent l h = l ∧
    SipService.removeEvent (SipService.onEvent l h) h = l ∧
    SipService.removeEvent l h = l ∧
    (∀ l2 : List α,
      TelephonyService.removeEvent (l ++ h :: l2) h = l ++ l2) ∧
    (∀ l2 : List α,
      SipService.removeEvent (l ++ h :: l2) h = l ++ l2) := by
  have hfirst : ∀ l2 : List α,
      TelephonyService.removeEvent (l ++ h :: l2) h = l ++ l2 :=
    fun l2 => removeEvent_first_occurrence l l2 h hnot
  have hround : TelephonyService.removeEvent (TelephonyService.onEvent l h) h
      = l := by
    have := hfirst []
    simpa [TelephonyService.onEvent] using this
  exact ⟨hround, removeEvent_not_mem l h hnot, hround,
    removeEvent_not_mem l h hnot, hfirst, hfirst⟩

/-- C7 witness: a concrete handler list over `Nat`. -/
theorem c7_witness :
    TelephonyService.removeEvent
      (TelephonyService.onEvent ([1, 2] : List Nat) 3) 3 = [1, 2] ∧
    TelephonyService.removeEvent ([1, 2] : List Nat) 3 = [1, 2] ∧
    SipService.removeEvent
      (SipService.onEvent ([1, 2] : List Nat) 3) 3 = [1, 2] ∧
    SipService.removeEvent ([1, 2] : List Nat) 3 = [1, 2] ∧
    TelephonyService.removeEvent (([1, 2] : List Nat) ++ 3 :: [3, 4]) 3
      = [1, 2] ++ [3, 4] ∧
    SipService.removeEvent (([1, 2] : List Nat) ++ 3 :: [3, 4]) 3
      = [1, 2] ++ [3, 4] := by
  obtain ⟨a, b, c, d, e, f⟩ :=
    c7_event_registration_round_trip ([1, 2] : List Nat) 3 (by decide)
  exact ⟨a, b, c, d, e [3, 4], f [3, 4]⟩

/-- C4: the token endpoint responds 400 exactly when `roomName` or
`participantName` is missing from the body (absent or empty, per the
handler's truthiness test); otherwise, with LiveKit credentials
configured, it responds with a signed access token whose identity is the
participant name and whose grant names the room, together with the
websocket URL, the room name and the participant name; without
credentials it responds 500. -/
theorem c4_livekit_token (env : Server.Env) (body : Server.TokenBody) :
    ((Server.livekitToken env body).status = 400 ↔
      (truthy body.roomName = false ∨ truthy body.participantName = false)) ∧
    (truthy body.roomName = true → truthy body.participantName = true →
      Server.credsConfigured env = true →
      ∃ t : Server.Jwt,
        Server.livekitToken env body =
          .issued t env.wsUrl (body.roomName.getD "")
            (body.participantName.getD "") ∧
        t.identity = body.participantName.getD "" ∧
        t.room = body.roomName.getD "" ∧ t.roomJoin = true) ∧
    (truthy body.roomName = true → truthy body.participantName = true →
      Server.credsConfigured env = false →
      (Server.livekitToken env body).status = 500) := by
  refine ⟨?_, ?_, ?_⟩
  · by_cases hr : truthy body.roomName <;>
      by_cases hp : truthy body.participantName <;>
      by_cases hc : Server.credsConfigured env <;>
      simp [Server.livekitToken, Server.generateLiveKitToken,
        Server.TokenResponse.status, hr, hp, hc]
  · intro hr hp hc
    refine ⟨⟨body.participantName.getD "", "10m", true,
        body.roomName.getD "", true, true, true⟩, ?_, rfl, rfl, rfl⟩
    simp [Server.livekitToken, Server.generateLiveKitToken, hr, hp, hc]
  · intro hr hp hc
    simp [Server.livekitToken, Server.generateLiveKitToken,
      Server.TokenResponse.status, hr, hp, hc]

/-- C4 witness: a concrete token request with configured credentials. -/
theorem c4_witness :
    ∃ t : Server.Jwt,
      Server.livekitToken ⟨some "key", some "secret", some "wss://x"⟩
          ⟨some "room-1", some "alice", none⟩ =
        .issued t (some "wss://x") "room-1" "alice" ∧
      t.identity = "alice" ∧ t.room = "room-1" ∧ t.roomJoin = true :=
  (c4_livekit_token ⟨some "key", some "secret", some "wss://x"⟩
    ⟨some "room-1", some "alice", none⟩).2.1 (by decide) (by decide)
    (by decide)

/-- C8: `deleteAllAgents` throws exactly when the listing is nonempty
and every individual deletion fails, the thrown error reporting the
number of failed deletions (in that case all of them); otherwise it
returns normally, and deletion is attempted for every listed agent in
listing order. -/
theorem c8_deleteAllAgents (agents : List LettaApi.LettaAgent)
    (del : String → Bool) :
    ((∃ e, (LettaApi.deleteAllAgents agents del).1 = .error e) ↔
      (agents ≠ [] ∧ ∀ a ∈ agents, del a.id = false)) ∧
    (∀ e, (LettaApi.deleteAllAgents agents del).1 = .error e →
      e = "All " ++ jsShowNat agents.length ++ " agent deletions failed") ∧
    (LettaApi.deleteAllAgents agents del).2 = agents.map (fun a => a.id) := by
  by_cases hnil : agents = []
  · subst hnil
    refine ⟨?_, ?_, ?_⟩ <;> simp [LettaApi.deleteAllAgents]
  · have hlen : ¬agents.length = 0 := by
      simpa using (List.length_pos.mpr hnil).ne'
    have hres : LettaApi.deleteLoop del agents =
        agents.map (fun a => (a.id, del a.id)) := deleteLoop_eq_map del agents
    have hsucc : ((LettaApi.deleteLoop del agents).filter
        (fun r => r.2)).length = agents.countP (fun a => del a.id) := by
      rw [hres, ← List.countP_eq_length_filter, List.countP_map]
      rfl
    have hfail : ((LettaApi.deleteLoop del agents).filter
        (fun r => !r.2)).length = agents.countP (fun a => !del a.id) := by
      rw [hres, ← List.countP_eq_length_filter, List.countP_map]
      rfl
    have htrace : (LettaApi.deleteLoop del agents).map (fun r => r.1) =
        agents.map (fun a => a.id) := by
      rw [hres, List.map_map]
      rfl
    by_cases hcond : 0 < agents.countP (fun a => !del a.id) ∧
        agents.countP (fun a => del a.id) = 0
    · have hall : ∀ a ∈ agents, del a.id = false := by
        intro a ha
        have := List.countP_eq_zero.mp hcond.2 a ha
        simpa using this
      have hflen : agents.countP (fun a => !del a.id) = agents.length :=
        List.countP_eq_length.mpr (by intro a ha; simp [hall a ha])
      have heval : LettaApi.deleteAllAgents agents del =
          (.error ("All " ++ jsShowNat agents.length
              ++ " agent deletions failed"),
           agents.map (fun a => a.id)) := by
        unfold LettaApi.deleteAllAgents
        rw [if_neg hlen]
        simp only [hsucc, hfail, htrace]
        rw [if_pos ⟨hcond.1, hcond.2⟩, hflen]
      refine ⟨?_, ?_, ?_⟩
      · rw [heval]
        exact ⟨fun _ => ⟨hnil, hall⟩, fun _ => ⟨_, rfl⟩⟩
      · intro e he
        rw [heval] at he
        exact (Except.error.injEq _ _).mp he.symm
      · rw [heval]
    · have heval : LettaApi.deleteAllAgents agents del =
          (.ok (), agents.map (fun a => a.id)) := by
        unfold LettaApi.deleteAllAgents
        rw [if_neg hlen]
        simp only [hsucc, hfail, htrace]
        rw [if_neg hcond]
      refine ⟨?_, ?_, ?_⟩
      · rw [heval]
        constructor
        · rintro ⟨e, he⟩
          cases he
        · rintro ⟨-, hall⟩
          exfalso
          apply hcond
          constructor
          · have : agents.countP (fun a => !del a.id) = agents.length :=
              List.countP_eq_length.mpr (by intro a ha; simp [hall a ha])
            rw [this]
            exact List.length_pos.mpr hnil
          · exact List.countP_eq_zero.mpr (by intro a ha; simp [hall a ha])
      · intro e he
        rw [heval] at he
        cases he
      · rw [heval]

/-- C8 witness: two agents, first deletion fails and second succeeds, so
no error is thrown and both deletions are attempted in order. -/
theorem c8_witness :
    ((∃ e, (LettaApi.deleteAllAgents
        [⟨"a1", "alpha", "p", "h", "c", "u"⟩,
         ⟨"a2", "beta", "p", "h", "c", "u"⟩]
        (fun i => i == "a2")).1 = .error e) ↔
      (([⟨"a1", "alpha", "p", "h", "c", "u"⟩,
         ⟨"a2", "beta", "p", "h", "c", "u"⟩] :
            List LettaApi.LettaAgent) ≠ [] ∧
       ∀ a ∈ ([⟨"a1", "alpha", "p", "h", "c", "u"⟩,
         ⟨"a2", "beta", "p", "h", "c", "u"⟩] :
            List LettaApi.LettaAgent), (a.id == "a2") = false)) ∧
    (∀ e, (LettaApi.deleteAllAgents
        [⟨"a1", "alpha", "p", "h", "c", "u"⟩,
         ⟨"a2", "beta", "p", "h", "c", "u"⟩]
        (fun i => i == "a2")).1 = .error e →
      e = "All " ++ jsShowNat ([⟨"a1", "alpha", "p", "h", "c", "u"⟩,
         ⟨"a2", "beta", "p", "h", "c", "u"⟩] :
            List LettaApi.LettaAgent).length ++ " agent deletions failed") ∧
    (LettaApi.deleteAllAgents
        [⟨"a1", "alpha", "p", "h", "c", "u"⟩,
         ⟨"a2", "beta", "p", "h", "c", "u"⟩]
        (fun i => i == "a2")).2 =
      ([⟨"a1", "alpha", "p", "h", "c", "u"⟩,
        ⟨"a2", "beta", "p", "h", "c", "u"⟩] :
           List LettaApi.LettaAgent).map (fun a => a.id) :=
  c8_deleteAllAgents
    [⟨"a1", "alpha", "p", "h", "c", "u"⟩,
     ⟨"a2", "beta", "p", "h", "c", "u"⟩]
    (fun i => i == "a2")

/-- C9: `formatPhoneNumber` returns its input unchanged exactly on the
strings `isValidPhoneNumber` rejects, and on accepted inputs returns the
US display form built from the extracted digits. -/
theorem c9_formatPhoneNumber (s : String) :
    (isValidPhoneNumber s = false → formatPhoneNumber s = s) ∧
    (isValidPhoneNumber s = true →
      formatPhoneNumber s = specUSPhoneForm (s.data.filter Char.isDigit)) := by
  have hval : isValidPhoneNumber s = true ↔
      ((s.data.filter Char.isDigit).length = 10 ∨
        ((s.data.filter Char.isDigit).length = 11 ∧
          (s.data.filter Char.isDigit).head? = some '1')) := by
    simp only [isValidPhoneNumber, Bool.or_eq_true, Bool.and_eq_true,
      beq_iff_eq]
  constructor
  · intro hv
    have hnd : ¬((s.data.filter Char.isDigit).length = 10 ∨
        ((s.data.filter Char.isDigit).length = 11 ∧
          (s.data.filter Char.isDigit).head? = some '1')) := by
      intro hd
      rw [hval.mpr hd] at hv
      cases hv
    simp only [formatPhoneNumber]
    rw [if_neg (fun hd => hnd (Or.inl hd)),
      if_neg (fun hd => hnd (Or.inr hd))]
  · intro hv
    rcases hval.mp hv with h10 | h11
    · simp only [formatPhoneNumber, specUSPhoneForm]
      rw [if_pos h10, if_pos h10]
    · have h10 : ¬(s.data.filter Char.isDigit).length = 10 := by
        rw [h11.1]; omega
      simp only [formatPhoneNumber, specUSPhoneForm]
      rw [if_neg h10, if_pos h11, if_neg h10]

/-- C9 witness: a rejected string is returned unchanged, an accepted one
is formatted. -/
theorem c9_witness :
    formatPhoneNumber "abc" = "abc" ∧
    formatPhoneNumber "555-123-4567" =
      specUSPhoneForm ("555-123-4567".data.filter Char.isDigit) :=
  ⟨(c9_formatPhoneNumber "abc").1 (by decide),
   (c9_formatPhoneNumber "555-123-4567").2 (by decide)⟩

/-- C10: both the startup load and the refresh after delete-all drop
every listed agent whose name ends in `'sleeptime'` (no displayed agent
carries such a name) and show every other listed agent, with status
`'online'` and `autoReceiveCalls` true. -/
theorem c10_sleeptime_filter (lst : List LettaApi.LettaAgent) :
    App.refreshAgentsAfterDeleteAll lst = App.loadLettaAgents lst ∧
    (∀ la ∈ lst, jsEndsWith la.name "sleeptime" = true →
      ∀ a ∈ App.loadLettaAgents lst, a.name ≠ la.name) ∧
    (∀ la ∈ lst, jsEndsWith la.name "sleeptime" = false →
      App.formatLettaAgent la ∈ App.loadLettaAgents lst ∧
      (App.formatLettaAgent la).id = la.id ∧
      (App.formatLettaAgent la).name = la.name ∧
      (App.formatLettaAgent la).status = .online ∧
      (App.formatLettaAgent la).autoReceiveCalls = some true) := by
  refine ⟨rfl, ?_, ?_⟩
  · intro la _ hsleep a ha hname
    rcases List.mem_map.mp ha with ⟨lb, hlb, rfl⟩
    rcases List.mem_filter.mp hlb with ⟨-, hkeep⟩
    have : lb.name = la.name := hname
    rw [this] at hkeep
    simp [hsleep] at hkeep
  · intro la hla hns
    refine ⟨?_, rfl, rfl, rfl, rfl⟩
    exact List.mem_map_of_mem _ (List.mem_filter.mpr ⟨hla, by simp [hns]⟩)

/-- C10 witness: one sleeptime-suffixed and one ordinary agent. -/
theorem c10_witness :
    App.refreshAgentsAfterDeleteAll
        [⟨"a1", "helper-sleeptime", "p.", "h", "c", "u"⟩,
         ⟨"a2", "helper", "Friendly agent. More.", "h", "c", "u"⟩] =
      App.loadLettaAgents
        [⟨"a1", "helper-sleeptime", "p.", "h", "c", "u"⟩,
         ⟨"a2", "helper", "Friendly agent. More.", "h", "c", "u"⟩] ∧
    (∀ a ∈ App.loadLettaAgents
        [⟨"a1", "helper-sleeptime", "p.", "h", "c", "u"⟩,
         ⟨"a2", "helper", "Friendly agent. More.", "h", "c", "u"⟩],
      a.name ≠ "helper-sleeptime") ∧
    App.formatLettaAgent
        ⟨"a2", "helper", "Friendly agent. More.", "h", "c", "u"⟩ ∈
      App.loadLettaAgents
        [⟨"a1", "helper-sleeptime", "p.", "h", "c", "u"⟩,
         ⟨"a2", "helper", "Friendly agent. More.", "h", "c", "u"⟩] ∧
    (App.formatLettaAgent
        ⟨"a2", "helper", "Friendly agent. More.", "h", "c", "u"⟩).status
      = .online ∧
    (App.formatLettaAgent
        ⟨"a2", "helper", "Friendly agent. More.", "h", "c", "u"⟩).autoReceiveCalls
      = some true := by
  obtain ⟨heq, hexcl, hincl⟩ := c10_sleeptime_filter
    [⟨"a1", "helper-sleeptime", "p.", "h", "c", "u"⟩,
     ⟨"a2", "helper", "Friendly agent. More.", "h", "c", "u"⟩]
  obtain ⟨hmem, -, -, hstat, hauto⟩ := hincl
    ⟨"a2", "helper", "Friendly agent. More.", "h", "c", "u"⟩
    (by simp) (by decide)
  exact ⟨heq,
    hexcl ⟨"a1", "helper-sleeptime", "p.", "h", "c", "u"⟩ (by simp) (by decide),
    hmem, hstat, hauto⟩

end QuickCall
